import Mathlib

/-!
Shallow embedding of the cascading multi-tier query resolution engine of
`src/knowledge_base/queries.py` (academic-research-copilot).

Modelling conventions:
* A backend call is a parameter of type `Except Unit (List Row)`:
  `.error ()` means the call raised (connection/execution failure), `.ok rows`
  means it returned a result set.  The MindsDB knowledge base is opaque
  (semantic matching is backend-internal), so its rows are arbitrary; the SQL
  `LIMIT n` clause of each built query is modelled by `List.take n`.
  The DuckDB `papers` table is modelled as its full row list and each query's
  `WHERE` clause is evaluated in the model (`LIKE '%q%'` as case-insensitive
  substring; queries containing SQL wildcard characters are outside the model).
* Python floats are modelled as exact rationals (`ℚ`); the constants involved
  (0.05 multiples, 0.75, 0.85, thresholds) make every comparison in the code
  exact, so no rounding behaviour is load-bearing for the claims.
* Python `int(s)` on the 4-character prefix of a date string is modelled by
  `pyIntPrefix4`: it succeeds exactly on all-digit prefixes (signs, embedded
  whitespace and underscores are outside the model; the dates the system
  produces are `YYYY-MM-DD` strings).  A failing `int()` is a raised
  `ValueError`, modelled as `Except.error`.
* String lowercasing is ASCII (`Char.toLower`), matching the data in use.
-/

/-- A result-set row as returned by either backend for the `SELECT` statements
built in `queries.py`: the seven bibliographic columns plus the distance-like
signal column (aliased `relevance_score` in plain search, `distance`
elsewhere; absent rows of the DuckDB tier simply have an unused `distance`). -/
structure Row where
  entry_id : String
  title : String
  summary : String
  authors : String
  published_date : Option String
  pdf_url : String
  categories : String
  distance : ℚ
deriving DecidableEq

/-- The paper dictionary built by the search operations (`relevance_score`
always present). -/
structure Paper where
  entry_id : String
  title : String
  summary : String
  authors : String
  published_date : Option String
  pdf_url : String
  categories : String
  relevance_score : ℚ
deriving DecidableEq

/-- The paper dictionary returned by `_get_paper_by_id_sync` (no
`relevance_score` key). -/
structure PaperInfo where
  entry_id : String
  title : String
  summary : String
  authors : String
  published_date : Option String
  pdf_url : String
  categories : String
deriving DecidableEq

/-- The `metadata_filters` dictionary of `hybrid_search`.  `none` at the outer
`Option` models both a `None` argument and an empty dict (both falsy at
`if metadata_filters:`). -/
structure Filters where
  authors : Option String := none
  year : Option Int := none
  categories : Option String := none
deriving DecidableEq

/-- `listStartsWith p l` : `l` begins with `p` (Python `str.startswith` on the
character lists). -/
def listStartsWith : List Char → List Char → Bool
  | [], _ => true
  | _ :: _, [] => false
  | a :: as, b :: bs => a == b && listStartsWith as bs

/-- Python `s.startswith(p)`. -/
def strStartsWith (p s : String) : Bool :=
  listStartsWith p.data s.data

/-- `listHasSub n h` : `n` occurs as a contiguous sublist of `h`. -/
def listHasSub (n : List Char) : List Char → Bool
  | [] => n.isEmpty
  | c :: t => listStartsWith n (c :: t) || listHasSub n t

/-- Case-insensitive substring test: models both Python's
`needle.lower() in hay.lower()` and SQL `LOWER(hay) LIKE LOWER('%needle%')`
(for needles without SQL wildcards). -/
def substrCI (needle hay : String) : Bool :=
  listHasSub (needle.data.map Char.toLower) (hay.data.map Char.toLower)

/-- Digit-string value accumulator for `pyIntPrefix4`. -/
def digitsVal : List Char → Nat → Option Nat
  | [], acc => some acc
  | c :: cs, acc =>
    if c.isDigit then digitsVal cs (acc * 10 + (c.toNat - 48)) else none

/-- Python `int(s[:4])`: succeeds with the numeric value when the (nonempty)
4-character prefix is all digits, fails (raises `ValueError`) otherwise. -/
def pyIntPrefix4 (s : String) : Option Int :=
  match s.data.take 4 with
  | [] => none
  | cs => (digitsVal cs 0).map Int.ofNat

/-- `str(x) if x else None` applied to an optional string field: Python
truthiness of the field (missing and empty string are falsy). -/
def pubStr : Option String → Option String
  | some s => if s = "" then none else some s
  | none => none

/-- Truthiness of a `published_date` value (`if pub_date:`). -/
def truthy : Option String → Bool
  | some s => !(s = "")
  | none => false

/-- Python's binary `min` on the exact rationals modelling the floats. -/
def pyMin (a b : ℚ) : ℚ :=
  if a ≤ b then a else b

/-- Python's binary `max` on the exact rationals modelling the floats. -/
def pyMax (a b : ℚ) : ℚ :=
  if b ≤ a then a else b

/-- Distance-to-relevance normalization used by the MindsDB tier:
`max(0, min(1, 1 - (distance / 2)))` (queries.py lines 91, 245, 345). -/
def normalizeDistance (d : ℚ) : ℚ :=
  pyMax 0 (pyMin 1 (1 - d / 2))

/-- The spec's wording of the normalizer: `clamp(1 - d/D_max, 0, 1)` with
`D_max = 2`. -/
def clamp (lo hi x : ℚ) : ℚ :=
  max lo (min hi x)

/-- Paper built from a MindsDB row (plain / semantic / hybrid primary tier). -/
def mkPaperKB (r : Row) : Paper :=
  { entry_id := r.entry_id
    title := r.title
    summary := r.summary
    authors := r.authors
    published_date := pubStr r.published_date
    pdf_url := r.pdf_url
    categories := r.categories
    relevance_score := normalizeDistance r.distance }

/-- Paper built from a DuckDB row in plain search's fallback tier
(`relevance_score: 0.75`). -/
def mkPaperLex (r : Row) : Paper :=
  { entry_id := r.entry_id
    title := r.title
    summary := r.summary
    authors := r.authors
    published_date := pubStr r.published_date
    pdf_url := r.pdf_url
    categories := r.categories
    relevance_score := 3 / 4 }

/-- Paper built from a DuckDB row in hybrid search's fallback tier
(`relevance_score: 0.85`). -/
def mkPaperHy (r : Row) : Paper :=
  { entry_id := r.entry_id
    title := r.title
    summary := r.summary
    authors := r.authors
    published_date := pubStr r.published_date
    pdf_url := r.pdf_url
    categories := r.categories
    relevance_score := 17 / 20 }

/-- The `WHERE` clause of the DuckDB text-search queries:
`LOWER(title) LIKE LOWER('%q%') OR LOWER(summary) LIKE ... OR
LOWER(categories) LIKE ...`. -/
def lexicalPred (query : String) (r : Row) : Bool :=
  substrCI query r.title || substrCI query r.summary || substrCI query r.categories

/-- The tertiary synthetic fallback batch of `_query_papers_sync`
(lines 167-180): one record per `i in range(1, min(limit + 1, 6))`. -/
def samplePapers (query : String) (limit : Nat) : List Paper :=
  (List.range (min limit 5)).map fun (j : Nat) =>
    { entry_id := "arxiv-sample-" ++ toString (j + 1)
      title := "Sample Paper " ++ toString (j + 1) ++ ": " ++ query
      summary := "This is a sample summary for paper " ++ toString (j + 1) ++
        " related to " ++ query ++
        ". In a production environment, this would be real paper data from ArXiv."
      authors := "John Doe, Jane Smith"
      published_date := some "2024-01-01"
      pdf_url := "https://arxiv.org/pdf/sample" ++ toString (j + 1) ++ ".pdf"
      categories := "cs.LG, cs.AI"
      relevance_score := 19 / 20 - ((j + 1 : Nat) : ℚ) * (1 / 20) }

/-- `_query_papers_sync(query, limit)` — the plain-search cascade.
`kb` is the outcome of the MindsDB query (its `LIMIT limit` modelled by
`take`), `db` the DuckDB `papers` table (or failure); the tertiary synthetic
tier never fails, so the function is total. -/
def queryPapersSync (kb db : Except Unit (List Row)) (query : String)
    (limit : Nat) : List Paper :=
  match kb with
  | .ok rows => (rows.take limit).map mkPaperKB
  | .error _ =>
    match db with
    | .ok store => (((store.filter (lexicalPred query)).take limit).map mkPaperLex)
    | .error _ => samplePapers query limit

/-- `_semantic_search_sync(query, threshold)` — primary tier with `LIMIT 50`
and in-loop relevance filtering, else `_query_papers_sync(query, 50)`
post-filtered by `relevance_score >= threshold`.  `fm`/`fd` are the backend
outcomes of the inner `_query_papers_sync` call. -/
def semanticSearchSync (kb fm fd : Except Unit (List Row)) (query : String)
    (threshold : ℚ) : List Paper :=
  match kb with
  | .ok rows =>
    (rows.take 50).filterMap fun r =>
      if threshold ≤ normalizeDistance r.distance then some (mkPaperKB r)
      else none
  | .error _ =>
    (queryPapersSync fm fd query 50).filter fun p =>
      threshold ≤ p.relevance_score

/-- Hybrid primary tier, authors check (lines 350-353): skip the record when
the filter string is not a (case-insensitive) substring of the row's authors. -/
def hybridAuthorsOk (f : Filters) (r : Row) : Bool :=
  match f.authors with
  | some a => substrCI a r.authors
  | none => true

/-- Hybrid primary tier, year check (lines 356-361).  `.ok true` = record
passes, `.ok false` = record skipped, `.error ()` = `int()` raised a
`ValueError` (unparseable nonempty date).  A falsy (missing/empty) date skips
the check, so the record passes. -/
def hybridYearCheck (f : Filters) (r : Row) : Except Unit Bool :=
  match f.year with
  | none => .ok true
  | some y =>
    if truthy r.published_date then
      match r.published_date with
      | some s =>
        match pyIntPrefix4 s with
        | some yr => .ok (decide (y ≤ yr))
        | none => .error ()
      | none => .ok true
    else .ok true

/-- Hybrid primary tier, categories check (lines 364-367). -/
def hybridCatsOk (f : Filters) (r : Row) : Bool :=
  match f.categories with
  | some c => substrCI c r.categories
  | none => true

/-- One iteration of the hybrid primary tier's row loop (lines 342-379):
checks run in source order (authors, year, categories), so a failing authors
check `continue`s before the year parse can raise. -/
def hybridRowStep (f? : Option Filters) (r : Row) : Except Unit (Option Paper) :=
  match f? with
  | none => .ok (some (mkPaperKB r))
  | some f =>
    if hybridAuthorsOk f r then
      match hybridYearCheck f r with
      | .error e => .error e
      | .ok keep =>
        if keep then
          if hybridCatsOk f r then .ok (some (mkPaperKB r)) else .ok none
        else .ok none
    else .ok none

/-- The hybrid primary tier's full row loop; a raised `ValueError` inside the
loop escapes to the surrounding `except` (the partial papers list is lost). -/
def hybridKBTier (f? : Option Filters) : List Row → Except Unit (List Paper)
  | [] => .ok []
  | r :: rest =>
    match hybridRowStep f? r with
    | .error e => .error e
    | .ok none => hybridKBTier f? rest
    | .ok (some p) => (hybridKBTier f? rest).map (p :: ·)

/-- The year predicate pushed down to DuckDB in the hybrid fallback query:
`CAST(strftime(published_date, '%Y') AS INTEGER) >= y` — the stored dates are
`YYYY-MM-DD`, so the year is the 4-digit prefix. -/
def sqlYearGe (y : Int) (r : Row) : Bool :=
  match r.published_date.bind pyIntPrefix4 with
  | some yr => decide (y ≤ yr)
  | none => false

/-- The full `WHERE` clause of hybrid search's DuckDB query (lines 401-428):
the lexical match plus all pushed-down metadata filters. -/
def hybridDBPred (query : String) (f? : Option Filters) (r : Row) : Bool :=
  lexicalPred query r &&
    match f? with
    | none => true
    | some f =>
      (match f.authors with
       | some a => substrCI a r.authors
       | none => true) &&
      (match f.year with
       | some y => sqlYearGe y r
       | none => true) &&
      (match f.categories with
       | some c => substrCI c r.categories
       | none => true)

/-- Hybrid search's DuckDB fallback tier (lines 389-451): pushdown filtering,
`LIMIT 50`, constant score 0.85. -/
def hybridDBTier (query : String) (f? : Option Filters) (store : List Row) :
    List Paper :=
  ((store.filter (hybridDBPred query f?)).take 50).map mkPaperHy

/-- Year check of the final post-filtering path (lines 468-480).  Records from
`_query_papers_sync` always carry a string-or-None date, so only the
`isinstance(pub_date, str)` branch is reachable; `int(pub_date[:4])` raising
on an unparseable date is NOT caught there and escapes the operation. -/
def finalYearCheck (y : Int) (p : Paper) : Except Unit Bool :=
  if truthy p.published_date then
    match p.published_date with
    | some s =>
      match pyIntPrefix4 s with
      | some yr => .ok (decide (y ≤ yr))
      | none => .error ()
    | none => .ok true
  else .ok true

/-- One iteration of the final post-filtering loop (lines 460-483): authors
check, then — only if still matching — year check.  No categories check
exists in this path. -/
def finalFilterStep (f : Filters) (p : Paper) : Except Unit Bool :=
  let matchA :=
    match f.authors with
    | some a => substrCI a p.authors
    | none => true
  if matchA then
    match f.year with
    | some y => finalYearCheck y p
    | none => .ok true
  else .ok false

/-- The final post-filtering loop of hybrid search. -/
def finalFilterList (f : Filters) : List Paper → Except Unit (List Paper)
  | [] => .ok []
  | p :: ps =>
    match finalFilterStep f p with
    | .error e => .error e
    | .ok true => (finalFilterList f ps).map (p :: ·)
    | .ok false => finalFilterList f ps

/-- `_hybrid_search_sync(query, metadata_filters)` — the hybrid cascade.
`kb` is the MindsDB call's outcome (`LIMIT 50` modelled by `take 50`; a
`ValueError` raised in the row loop is caught by the same `except`), `db` the
DuckDB `papers` table (or failure), `fm`/`fd` the backend outcomes of the
final path's inner `_query_papers_sync(query, 50)` call.  The final path's
post-filter can itself raise (uncaught), hence the `Except` result. -/
def hybridSearchSync (kb db fm fd : Except Unit (List Row)) (query : String)
    (f? : Option Filters) : Except Unit (List Paper) :=
  match
    (match kb with
     | .ok rows => hybridKBTier f? (rows.take 50)
     | .error e => .error e) with
  | .ok papers => .ok papers
  | .error _ =>
    match db with
    | .ok store => .ok (hybridDBTier query f? store)
    | .error _ =>
      match f? with
      | some f => finalFilterList f (queryPapersSync fm fd query 50)
      | none => .ok (queryPapersSync fm fd query 50)

/-- The synthetic record built by `_get_paper_by_id_sync`'s fallback (its
Python `published_date` is the date object `date(2024, 1, 1)`, rendered here
by its string form). -/
def samplePaperInfo (entry_id : String) : PaperInfo :=
  { entry_id := entry_id
    title := "Sample Paper for " ++ entry_id
    summary := "This is a detailed summary of the paper."
    authors := "John Doe, Jane Smith"
    published_date := some "2024-01-01"
    pdf_url := "https://arxiv.org/pdf/" ++ entry_id ++ ".pdf"
    categories := "cs.LG, cs.AI" }

/-- `_get_paper_by_id_sync(entry_id)` — a point lookup against the DuckDB
store (`db`).  When the store query succeeds: first row with matching
`entry_id`, else `None`.  When it raises: a synthetic record only for
identifiers starting with `"arxiv-"`, else `None`. -/
def getPaperByIdSync (db : Except Unit (List Row)) (entry_id : String) :
    Option PaperInfo :=
  match db with
  | .ok store =>
    match store.find? (fun r => r.entry_id == entry_id) with
    | some r =>
      some { entry_id := r.entry_id
             title := r.title
             summary := r.summary
             authors := r.authors
             published_date := pubStr r.published_date
             pdf_url := r.pdf_url
             categories := r.categories }
    | none => none
  | .error _ =>
    if strStartsWith "arxiv-" entry_id then some (samplePaperInfo entry_id)
    else none

/-! ### Concrete test data -/

/-- A lexical-store row whose title matches the query "alpha". -/
def rowT : Row :=
  { entry_id := "p3", title := "alpha beta", summary := "s", authors := "a"
    published_date := some "2020-01-01", pdf_url := "u", categories := "cs.AI"
    distance := 0 }

/-- A knowledge-base row with a missing publication date. -/
def rowNoDate : Row :=
  { entry_id := "p1", title := "t", summary := "s", authors := "a"
    published_date := none, pdf_url := "u", categories := "cs.AI", distance := 0 }

/-- A knowledge-base row with a present but unparseable publication date. -/
def rowBadDate : Row :=
  { entry_id := "p2", title := "t", summary := "s", authors := "a"
    published_date := some "unknown", pdf_url := "u", categories := "cs.AI"
    distance := 0 }

/-- A row with a parseable date (year 2020) and category field "cs.AI". -/
def rowCs : Row :=
  { entry_id := "p4", title := "training methods", summary := "s", authors := "a"
    published_date := some "2020-01-01", pdf_url := "u", categories := "cs.AI"
    distance := 0 }


/-- A paper's `published_date` is missing, empty, or has a parseable
4-character year prefix — i.e. the final post-filter's `int()` cannot raise
on it. -/
def dateParses (p : Paper) : Bool :=
  match p.published_date with
  | none => true
  | some s => (s == "") || (pyIntPrefix4 s).isSome

/-! ### Helper lemmas -/

lemma pyMin_eq_min (a b : ℚ) : pyMin a b = min a b := by
  unfold pyMin
  by_cases h : a ≤ b
  · rw [if_pos h, min_eq_left h]
  · rw [if_neg h, min_eq_right (le_of_not_le h)]

lemma pyMax_eq_max (a b : ℚ) : pyMax a b = max a b := by
  unfold pyMax
  by_cases h : b ≤ a
  · rw [if_pos h, max_eq_left h]
  · rw [if_neg h, max_eq_right (le_of_not_le h)]

lemma normalizeDistance_eq (d : ℚ) : normalizeDistance d = max 0 (min 1 (1 - d / 2)) := by
  rw [normalizeDistance, pyMax_eq_max, pyMin_eq_min]

/-! ### C5 -/

/-- C5: the primary tier's normalized relevance equals `clamp(1 - d/2, 0, 1)`;
it lies in `[0, 1]`, is `1` at distance `0`, is `0` at any distance `≥ 2`, and
is monotonically non-increasing in the distance. -/
theorem c5_normalize_clamp (d dd : ℚ) :
    normalizeDistance d = clamp 0 1 (1 - d / 2)
    ∧ 0 ≤ normalizeDistance d
    ∧ normalizeDistance d ≤ 1
    ∧ normalizeDistance 0 = 1
    ∧ (2 ≤ d → normalizeDistance d = 0)
    ∧ (d ≤ dd → normalizeDistance dd ≤ normalizeDistance d) := by
  refine ⟨by rw [normalizeDistance_eq, clamp], ?_, ?_, ?_, ?_, ?_⟩
  · rw [normalizeDistance_eq]
    exact le_max_left 0 _
  · rw [normalizeDistance_eq]
    exact max_le (by norm_num) (min_le_left 1 _)
  · rw [normalizeDistance_eq]
    norm_num
  · intro h
    rw [normalizeDistance_eq]
    have h1 : 1 - d / 2 ≤ 0 := by linarith
    rw [min_eq_right (le_trans h1 (by norm_num)), max_eq_left h1]
  · intro h
    rw [normalizeDistance_eq, normalizeDistance_eq]
    exact max_le_max le_rfl (min_le_min le_rfl (by linarith))

/-- C5 witness: the clamping and monotonicity facts at distances 3 and 4. -/
theorem c5_normalize_clamp_witness :
    normalizeDistance 3 = 0 ∧ normalizeDistance 4 ≤ normalizeDistance 3 :=
  ⟨(c5_normalize_clamp 3 4).2.2.2.2.1 (by norm_num),
   (c5_normalize_clamp 3 4).2.2.2.2.2 (by norm_num)⟩

/-! ### C7 -/

/-- C7: when the primary tier of plain search completes without raising —
including with an empty row set — the result is exactly that tier's normalized
output and the lower tiers are never consulted (the result is independent of
the secondary backend's state); analogously for the other two operations'
primary tiers. -/
theorem c7_primary_short_circuits (rows : List Row)
    (db db' fm fm' fd fd' : Except Unit (List Row)) (q : String) (limit : Nat)
    (t : ℚ) (f? : Option Filters) (ps : List Paper) :
    queryPapersSync (.ok rows) db q limit = (rows.take limit).map mkPaperKB
    ∧ queryPapersSync (.ok rows) db q limit = queryPapersSync (.ok rows) db' q limit
    ∧ queryPapersSync (.ok []) db q limit = []
    ∧ semanticSearchSync (.ok rows) fm fd q t = semanticSearchSync (.ok rows) fm' fd' q t
    ∧ (hybridKBTier f? (rows.take 50) = .ok ps →
        hybridSearchSync (.ok rows) db fm fd q f? = .ok ps) := by
  refine ⟨rfl, rfl, ?_, rfl, ?_⟩
  · cases limit <;> rfl
  · intro h
    simp only [hybridSearchSync, h]

/-- C7 witness: primary tier succeeding with an empty result terminates the
cascade for plain search and for hybrid search. -/
theorem c7_primary_short_circuits_witness :
    queryPapersSync (.ok []) (.error ()) "x" 10 = []
    ∧ hybridSearchSync (.ok []) (.error ()) (.error ()) (.error ()) "x" none = .ok [] := by
  refine ⟨(c7_primary_short_circuits [] (.error ()) (.error ()) (.error ())
    (.error ()) (.error ()) (.error ()) "x" 10 0 none []).2.2.1, ?_⟩
  exact (c7_primary_short_circuits [] (.error ()) (.error ()) (.error ())
    (.error ()) (.error ()) (.error ()) "x" 10 0 none []).2.2.2.2 rfl

/-! ### C10 -/

/-- C10: the tertiary synthetic batch has exactly `min(limit, 5)` records; in
particular a limit above 5 yields exactly 5 records, fewer than requested. -/
theorem c10_synthetic_capped (q : String) (limit : Nat) :
    (queryPapersSync (.error ()) (.error ()) q limit).length = min limit 5
    ∧ (5 < limit → (queryPapersSync (.error ()) (.error ()) q limit).length = 5) := by
  have h : (queryPapersSync (.error ()) (.error ()) q limit).length = min limit 5 := by
    simp [queryPapersSync, samplePapers]
  refine ⟨h, fun hlt => ?_⟩
  rw [h]
  omega

/-- C10 witness: at limit 7 the synthetic batch has exactly 5 records. -/
theorem c10_synthetic_capped_witness :
    (queryPapersSync (.error ()) (.error ()) "x" 7).length = 5 :=
  (c10_synthetic_capped "x" 7).2 (by norm_num)

/-! ### C4 -/

lemma queryPapersSync_length_le (kb db : Except Unit (List Row)) (q : String)
    (limit : Nat) : (queryPapersSync kb db q limit).length ≤ limit := by
  cases kb with
  | ok rows =>
    simp only [queryPapersSync, List.length_map, List.length_take]
    omega
  | error e =>
    cases db with
    | ok store =>
      simp only [queryPapersSync, List.length_map, List.length_take]
      omega
    | error e' =>
      simp only [queryPapersSync, samplePapers, List.length_map, List.length_range]
      omega

/-- C4: every record returned by the threshold-filtered semantic search scores
at least the threshold, and at most 50 records are returned — both when the
primary tier answers and when the cascade falls back. -/
theorem c4_threshold_and_cap (kb fm fd : Except Unit (List Row)) (q : String)
    (t : ℚ) :
    (semanticSearchSync kb fm fd q t).Forall (fun p => t ≤ p.relevance_score)
    ∧ (semanticSearchSync kb fm fd q t).length ≤ 50 := by
  constructor
  · rw [List.forall_iff_forall_mem]
    intro p hp
    cases kb with
    | ok rows =>
      simp only [semanticSearchSync, List.mem_filterMap] at hp
      obtain ⟨r, _, hr⟩ := hp
      by_cases hle : t ≤ normalizeDistance r.distance
      · rw [if_pos hle] at hr
        cases hr
        exact hle
      · rw [if_neg hle] at hr
        cases hr
    | error e =>
      simp only [semanticSearchSync, List.mem_filter] at hp
      exact of_decide_eq_true hp.2
  · cases kb with
    | ok rows =>
      calc (semanticSearchSync (.ok rows) fm fd q t).length
          ≤ (rows.take 50).length := List.length_filterMap_le _ _
        _ ≤ 50 := by
            rw [List.length_take]
            omega
    | error e =>
      calc (semanticSearchSync (.error e) fm fd q t).length
          ≤ (queryPapersSync fm fd q 50).length := List.length_filter_le _ _
        _ ≤ 50 := queryPapersSync_length_le fm fd q 50

/-! ### C6 -/

/-- C6: with both real tiers failing, plain search at limit 5 returns exactly
5 synthetic records with strictly decreasing, strictly positive relevance
scores and identifiers carrying the reserved synthetic prefix. -/
theorem c6_full_fallback (q : String) :
    (queryPapersSync (.error ()) (.error ()) q 5).length = 5
    ∧ (queryPapersSync (.error ()) (.error ()) q 5).map Paper.relevance_score
        = [9/10, 17/20, 4/5, 3/4, 7/10]
    ∧ List.Chain' (fun a b : ℚ => b < a)
        ((queryPapersSync (.error ()) (.error ()) q 5).map Paper.relevance_score)
    ∧ ((queryPapersSync (.error ()) (.error ()) q 5).map Paper.relevance_score).Forall
        (fun x => 0 < x)
    ∧ (queryPapersSync (.error ()) (.error ()) q 5).map Paper.entry_id
        = ["arxiv-sample-1", "arxiv-sample-2", "arxiv-sample-3",
           "arxiv-sample-4", "arxiv-sample-5"]
    ∧ ((queryPapersSync (.error ()) (.error ()) q 5).map Paper.entry_id).all
        (strStartsWith "arxiv-sample-") = true := by
  have hs : (queryPapersSync (.error ()) (.error ()) q 5).map Paper.relevance_score
      = [19/20 - ((0+1 : Nat) : ℚ) * (1/20), 19/20 - ((1+1 : Nat) : ℚ) * (1/20),
         19/20 - ((2+1 : Nat) : ℚ) * (1/20), 19/20 - ((3+1 : Nat) : ℚ) * (1/20),
         19/20 - ((4+1 : Nat) : ℚ) * (1/20)] := rfl
  have hs' : (queryPapersSync (.error ()) (.error ()) q 5).map Paper.relevance_score
      = [9/10, 17/20, 4/5, 3/4, 7/10] := by
    rw [hs]
    norm_num
  refine ⟨rfl, hs', ?_, ?_, rfl, rfl⟩
  · rw [hs']
    simp only [List.chain'_cons, List.chain'_singleton, and_true]
    norm_num
  · rw [hs']
    simp only [List.Forall]
    norm_num

/-! ### C9 -/

/-- C9: an identifier absent from the structured store yields "not found"
(`none`), not an error and not a synthetic record; when the store is
unreachable, a synthetic record is produced exactly for identifiers matching
the demo naming convention (`"arxiv-"` prefix), and `none` otherwise. -/
theorem c9_point_lookup (store : List Row) (id : String) :
    (store.all (fun r => !(r.entry_id == id)) = true →
      getPaperByIdSync (.ok store) id = none)
    ∧ (strStartsWith "arxiv-" id = false → getPaperByIdSync (.error ()) id = none)
    ∧ (strStartsWith "arxiv-" id = true →
        getPaperByIdSync (.error ()) id = some (samplePaperInfo id)) := by
  refine ⟨?_, ?_, ?_⟩
  · intro h
    have hfind : store.find? (fun r => r.entry_id == id) = none := by
      rw [List.find?_eq_none]
      intro r hr
      have := List.all_eq_true.mp h r hr
      simp only [Bool.not_eq_true'] at this
      simp [this]
    simp only [getPaperByIdSync, hfind]
  · intro h
    simp only [getPaperByIdSync, h, Bool.false_eq_true, if_false]
  · intro h
    simp only [getPaperByIdSync, h, if_true]

/-- C9 witness: the identifier "does-not-exist" yields `none` both from a
store that does not contain it and from an unreachable store. -/
theorem c9_point_lookup_witness :
    getPaperByIdSync (.ok []) "does-not-exist" = none
    ∧ getPaperByIdSync (.error ()) "does-not-exist" = none :=
  ⟨(c9_point_lookup [] "does-not-exist").1 rfl,
   (c9_point_lookup [] "does-not-exist").2.1 rfl⟩

/-! ### C2 (corrected) -/

/-- C2 counterexample: with `min_year = 2050` present and a record whose
publication date is missing, hybrid search RETURNS the record — the missing
date passes the year predicate instead of failing it. -/
theorem c2_missing_date_counterexample :
    hybridSearchSync (.ok [rowNoDate]) (.error ()) (.error ()) (.error ()) "q"
        (some { year := some 2050 }) = .ok [mkPaperKB rowNoDate]
    ∧ rowNoDate.published_date = none
    ∧ (mkPaperKB rowNoDate).published_date = none :=
  ⟨rfl, rfl, rfl⟩

/-- C2 amended: under a present `min_year` filter, a record with a missing (or
empty) publication date PASSES the year predicate; a record with a present,
parseable date is excluded exactly when its parsed year is below `min_year`;
a present unparseable date raises (`ValueError`), i.e. fails the whole tier in
the primary tier and the whole operation in the final fallback path. -/
theorem c2_year_predicate (f : Filters) (y : Int) (r : Row) (p : Paper)
    (s : String) (yr : Int) :
    f.year = some y →
    ((r.published_date = none → hybridYearCheck f r = .ok true)
     ∧ (r.published_date = some s → s ≠ "" → pyIntPrefix4 s = some yr →
         hybridYearCheck f r = .ok (decide (y ≤ yr)))
     ∧ (r.published_date = some s → s ≠ "" → pyIntPrefix4 s = none →
         hybridYearCheck f r = .error ())
     ∧ (p.published_date = none → finalYearCheck y p = .ok true)
     ∧ (p.published_date = some s → s ≠ "" → pyIntPrefix4 s = some yr →
         finalYearCheck y p = .ok (decide (y ≤ yr)))
     ∧ (p.published_date = some s → s ≠ "" → pyIntPrefix4 s = none →
         finalYearCheck y p = .error ())) := by
  intro hy
  refine ⟨?_, ?_, ?_, ?_, ?_, ?_⟩
  · intro hd
    simp [hybridYearCheck, hy, hd, truthy]
  · intro hd hne hparse
    simp [hybridYearCheck, hy, hd, truthy, hne, hparse]
  · intro hd hne hparse
    simp [hybridYearCheck, hy, hd, truthy, hne, hparse]
  · intro hd
    simp [finalYearCheck, hd, truthy]
  · intro hd hne hparse
    simp [finalYearCheck, hd, truthy, hne, hparse]
  · intro hd hne hparse
    simp [finalYearCheck, hd, truthy, hne, hparse]

/-- C2 witness: with `min_year = 2050`, the missing-date row passes the tier
check, a 2020 date is rejected, and an unparseable date raises. -/
theorem c2_year_predicate_witness :
    hybridYearCheck { year := some 2050 } rowNoDate = .ok true
    ∧ hybridYearCheck { year := some 2050 } rowCs = .ok (decide ((2050 : Int) ≤ 2020))
    ∧ hybridYearCheck { year := some 2050 } rowBadDate = .error () :=
  ⟨(c2_year_predicate { year := some 2050 } 2050 rowNoDate (mkPaperKB rowNoDate)
      "" 0 rfl).1 rfl,
   (c2_year_predicate { year := some 2050 } 2050 rowCs (mkPaperKB rowCs)
      "2020-01-01" 2020 rfl).2.1 rfl (by decide) rfl,
   (c2_year_predicate { year := some 2050 } 2050 rowBadDate (mkPaperKB rowBadDate)
      "unknown" 0 rfl).2.2.1 rfl (by decide) rfl⟩

/-! ### C3 (corrected) -/

/-- C3 counterexample: with only a categories filter ("math") present and all
backends failing, hybrid search's final fallback path returns the 5 synthetic
records unfiltered — none of which contains "math" in its categories — because
the final post-filter checks only authors and year. -/
theorem c3_categories_counterexample :
    hybridSearchSync (.error ()) (.error ()) (.error ()) (.error ()) "q"
        (some { categories := some "math" }) = .ok (samplePapers "q" 50)
    ∧ (samplePapers "q" 50).length = 5
    ∧ ((samplePapers "q" 50).map Paper.categories).all
        (fun c => !(substrCI "math" c)) = true :=
  ⟨rfl, rfl, rfl⟩

lemma hybridRowStep_some_elim {f : Filters} {r : Row} {p : Paper}
    (h : hybridRowStep (some f) r = .ok (some p)) :
    p = mkPaperKB r ∧ hybridCatsOk f r = true := by
  by_cases hA : hybridAuthorsOk f r
  · cases hY : hybridYearCheck f r with
    | error e => simp [hybridRowStep, hA, hY] at h
    | ok keep =>
      cases keep with
      | true =>
        by_cases hC : hybridCatsOk f r
        · simp only [hybridRowStep, hA, hY, hC, if_true, Except.ok.injEq,
            Option.some.injEq] at h
          exact ⟨h.symm, hC⟩
        · simp [hybridRowStep, hA, hY, hC] at h
      | false => simp [hybridRowStep, hA, hY] at h
  · simp [hybridRowStep, hA] at h

lemma hybridKBTier_ok_forall {f : Filters} {c : String}
    (hc : f.categories = some c) :
    ∀ (rows : List Row) (ps : List Paper),
      hybridKBTier (some f) rows = .ok ps →
      ps.Forall (fun x => substrCI c x.categories = true) := by
  intro rows
  induction rows with
  | nil =>
    intro ps h
    simp only [hybridKBTier] at h
    cases h
    exact trivial
  | cons r rest ih =>
    intro ps h
    simp only [hybridKBTier] at h
    cases hstep : hybridRowStep (some f) r with
    | error e =>
      rw [hstep] at h
      cases h
    | ok o =>
      rw [hstep] at h
      cases o with
      | none => exact ih ps h
      | some p =>
        cases htail : hybridKBTier (some f) rest with
        | error e =>
          rw [htail] at h
          cases h
        | ok tail =>
          rw [htail] at h
          cases h
          show (p :: tail).Forall (fun x => substrCI c x.categories = true)
          obtain ⟨hp, hcat⟩ := hybridRowStep_some_elim hstep
          rw [List.forall_cons]
          refine ⟨?_, ih tail htail⟩
          rw [hp]
          have : substrCI c r.categories = true := by
            unfold hybridCatsOk at hcat
            rw [hc] at hcat
            exact hcat
          exact this

/-- C3 amended: the categories predicate holds for every candidate produced by
the primary tier's in-memory filter and by the secondary tier's SQL pushdown,
but it is NOT applied by the final fallback's post-filter, which enforces only
the authors and year predicates. -/
theorem c3_categories_by_tier :
    (∀ (f : Filters) (c : String) (rows : List Row) (ps : List Paper),
      f.categories = some c → hybridKBTier (some f) rows = .ok ps →
      ps.Forall (fun x => substrCI c x.categories = true))
    ∧ (∀ (f : Filters) (c : String) (q : String) (store : List Row),
      f.categories = some c →
      (hybridDBTier q (some f) store).Forall
        (fun x => substrCI c x.categories = true)) := by
  constructor
  · intro f c rows ps hc h
    exact hybridKBTier_ok_forall hc rows ps h
  · intro f c q store hc
    rw [List.forall_iff_forall_mem]
    intro p hp
    simp only [hybridDBTier, List.mem_map] at hp
    obtain ⟨r, hr, hpr⟩ := hp
    have hr' : r ∈ store.filter (hybridDBPred q (some f)) := List.mem_of_mem_take hr
    have hpred : hybridDBPred q (some f) r = true := List.of_mem_filter hr'
    simp only [hybridDBPred, hc, Bool.and_eq_true] at hpred
    rw [← hpr]
    exact hpred.2.2

/-- C3 amended witness: a "cs" categories filter is honoured for a concrete
row by both the primary tier's filter and the secondary tier's pushdown. -/
theorem c3_categories_by_tier_witness :
    ([mkPaperKB rowCs]).Forall (fun x => substrCI "cs" x.categories = true)
    ∧ (hybridDBTier "train" (some { categories := some "cs" }) [rowCs]).Forall
        (fun x => substrCI "cs" x.categories = true) :=
  ⟨c3_categories_by_tier.1 { categories := some "cs" } "cs" [rowCs]
      [mkPaperKB rowCs] rfl rfl,
   c3_categories_by_tier.2 { categories := some "cs" } "cs" "train" [rowCs] rfl⟩

/-! ### C8 (corrected) -/

/-- C8 counterexample: the lexical tier's constant is NOT the same across
operations — plain search scores a lexical hit 0.75 while hybrid search scores
the same hit 0.85. -/
theorem c8_constant_differs :
    (queryPapersSync (.error ()) (.ok [rowT]) "alpha" 10).map Paper.relevance_score
        = [3/4]
    ∧ hybridSearchSync (.error ()) (.ok [rowT]) (.error ()) (.error ()) "alpha" none
        = .ok [mkPaperHy rowT]
    ∧ (mkPaperHy rowT).relevance_score = 17/20
    ∧ (3/4 : ℚ) ≠ 17/20 :=
  ⟨rfl, rfl, rfl, by norm_num⟩

/-- C8 amended: within each operation the lexical tier's score is one fixed
constant for every hit, but the constant is per-operation: 0.75 for plain
search (hence also for threshold search's fallback), 0.85 for hybrid
search's lexical tier. -/
theorem c8_constant_per_operation (store : List Row) (q : String) (limit : Nat)
    (f? : Option Filters) :
    (queryPapersSync (.error ()) (.ok store) q limit).Forall
      (fun p => p.relevance_score = 3/4)
    ∧ (hybridDBTier q f? store).Forall (fun p => p.relevance_score = 17/20) := by
  constructor
  · rw [List.forall_iff_forall_mem]
    intro p hp
    simp only [queryPapersSync, List.mem_map] at hp
    obtain ⟨r, _, hpr⟩ := hp
    rw [← hpr]
    rfl
  · rw [List.forall_iff_forall_mem]
    intro p hp
    simp only [hybridDBTier, List.mem_map] at hp
    obtain ⟨r, _, hpr⟩ := hp
    rw [← hpr]
    rfl

/-! ### C1 (corrected) -/

lemma finalYearCheck_isOk {y : Int} {p : Paper} (h : dateParses p = true) :
    (finalYearCheck y p).isOk = true := by
  unfold dateParses at h
  unfold finalYearCheck
  cases hd : p.published_date with
  | none => simp [truthy, Except.isOk, Except.toBool]
  | some s =>
    rw [hd] at h
    by_cases hne : s = ""
    · simp [truthy, hne, Except.isOk, Except.toBool]
    · simp only [truthy, hne, Bool.not_false, if_true]
      simp only [Bool.or_eq_true, beq_iff_eq, Option.isSome_iff_exists] at h
      rcases h with h | ⟨yr, hyr⟩
      · exact absurd h hne
      · simp [hyr, Except.isOk, Except.toBool]

lemma finalFilterStep_isOk {f : Filters} {p : Paper} (h : dateParses p = true) :
    (finalFilterStep f p).isOk = true := by
  unfold finalFilterStep
  by_cases hA : (match f.authors with
    | some a => substrCI a p.authors
    | none => true) = true
  · simp only [hA, if_true]
    cases hy : f.year with
    | none => rfl
    | some y => exact finalYearCheck_isOk h
  · simp only [Bool.not_eq_true] at hA
    simp [hA, Except.isOk, Except.toBool]

lemma finalFilterList_isOk {f : Filters} :
    ∀ {ps : List Paper}, ps.all dateParses = true →
      (finalFilterList f ps).isOk = true := by
  intro ps
  induction ps with
  | nil =>
    intro _
    rfl
  | cons p rest ih =>
    intro h
    rw [List.all_cons, Bool.and_eq_true] at h
    have hstep := finalFilterStep_isOk (f := f) h.1
    unfold finalFilterList
    cases hs : finalFilterStep f p with
    | error e =>
      rw [hs] at hstep
      cases hstep
    | ok b =>
      cases b with
      | true =>
        have htail := ih h.2
        cases ht : finalFilterList f rest with
        | error e =>
          rw [ht] at htail
          cases htail
        | ok tail => simp [ht, Except.map, Except.isOk, Except.toBool]
      | false => exact ih h.2

/-- The fallback part of `hybridSearchSync` (tiers 2 and 3), entered when the
primary tier raised. -/
lemma hybridSearchSync_fallback (kb db fm fd : Except Unit (List Row))
    (q : String) (f? : Option Filters) :
    (∀ rows ps, kb = .ok rows → hybridKBTier f? (rows.take 50) = .ok ps →
      hybridSearchSync kb db fm fd q f? = .ok ps)
    ∧ (∀ store, db = .ok store →
        (hybridSearchSync kb db fm fd q f?).isOk = true)
    ∧ (kb = .error () → db = .error () →
        hybridSearchSync kb db fm fd q f?
          = (match f? with
             | some f => finalFilterList f (queryPapersSync fm fd q 50)
             | none => .ok (queryPapersSync fm fd q 50))) := by
  refine ⟨?_, ?_, ?_⟩
  · intro rows ps hkb ht
    subst hkb
    simp only [hybridSearchSync, ht]
  · intro store hdb
    subst hdb
    unfold hybridSearchSync
    cases kb with
    | error e => simp [Except.isOk, Except.toBool]
    | ok rows =>
      cases ht : hybridKBTier f? (rows.take 50) with
      | ok papers => simp [ht, Except.isOk, Except.toBool]
      | error e => simp [ht, Except.isOk, Except.toBool]
  · intro hkb hdb
    subst hkb
    subst hdb
    rfl

/-- C1 counterexample: hybrid search CAN surface a failure to the caller —
with both of its own tiers failing, a year filter present, and the inner
plain-search call producing a record with a nonempty unparseable date, the
final post-filter's `int()` raises and nothing catches it. -/
theorem c1_hybrid_failure_counterexample :
    hybridSearchSync (.error ()) (.error ()) (.ok [rowBadDate]) (.error ()) "q"
        (some { year := some 2000 }) = .error () :=
  rfl

/-- C1 amended: plain search's cascade catches every backend failure and its
synthetic tier always succeeds; hybrid search likewise never surfaces a
backend failure caught at a tier boundary — it returns a list whenever no
filters are present, whenever its secondary store answers, and whenever every
record reaching the final post-filter has a missing-or-parseable date.  The
only surfaced failure is the final path's date-parse exception. -/
theorem c1_no_failure_surfaced (kb db fm fd : Except Unit (List Row))
    (q : String) (f? : Option Filters) (limit : Nat) :
    queryPapersSync (.error ()) (.error ()) q limit = samplePapers q limit
    ∧ ((queryPapersSync fm fd q 50).all dateParses = true →
        (hybridSearchSync kb db fm fd q f?).isOk = true)
    ∧ (f? = none → (hybridSearchSync kb db fm fd q f?).isOk = true)
    ∧ (∀ store, db = .ok store →
        (hybridSearchSync kb db fm fd q f?).isOk = true) := by
  have hfinal : ∀ hq : (queryPapersSync fm fd q 50).all dateParses = true
      ∨ f? = none,
      kb = .error () → db = .error () →
      (hybridSearchSync kb db fm fd q f?).isOk = true := by
    intro hq hkb hdb
    rw [(hybridSearchSync_fallback kb db fm fd q f?).2.2 hkb hdb]
    cases f? with
    | none => rfl
    | some f =>
      rcases hq with hq | hq
      · exact finalFilterList_isOk hq
      · cases hq
  have hcase : ∀ hq : (queryPapersSync fm fd q 50).all dateParses = true
      ∨ f? = none,
      (hybridSearchSync kb db fm fd q f?).isOk = true := by
    intro hq
    cases kb with
    | ok rows =>
      cases ht : hybridKBTier f? (rows.take 50) with
      | ok papers =>
        rw [(hybridSearchSync_fallback (.ok rows) db fm fd q f?).1 rows papers
          rfl ht]
        rfl
      | error e =>
        simp only [hybridSearchSync, ht]
        cases db with
        | ok store => simp [Except.isOk, Except.toBool]
        | error e' =>
          cases f? with
          | none => simp [Except.isOk, Except.toBool]
          | some f =>
            rcases hq with hq | hq
            · simpa using finalFilterList_isOk hq
            · cases hq
    | error e =>
      cases db with
      | ok store =>
        exact (hybridSearchSync_fallback (.error e) (.ok store) fm fd q f?).2.1
          store rfl
      | error e' =>
        exact hfinal hq rfl rfl
  exact ⟨rfl, fun h => hcase (Or.inl h), fun h => hcase (Or.inr h),
    fun store hdb =>
      (hybridSearchSync_fallback kb db fm fd q f?).2.1 store hdb⟩

/-- C1 amended witness: with every backend failing and a year filter present,
the synthetic batch's dates all parse, so hybrid search still returns a
list. -/
theorem c1_no_failure_surfaced_witness :
    (hybridSearchSync (.error ()) (.error ()) (.error ()) (.error ()) "x"
        (some { year := some 2020 })).isOk = true :=
  (c1_no_failure_surfaced (.error ()) (.error ()) (.error ()) (.error ()) "x"
      (some { year := some 2020 }) 0).2.1 rfl
